import Mathlib

/-
Shallow embedding of the EMR API gateway (src/src/gateway/app.py).

The gateway is a Flask application built from decorator middleware:
rate limiting (`rate_limited`), bearer-token verification plus scope/role
policy (`jwt_required`), an idempotency guard for POSTs
(`require_idempotency_for_post`), a retrying upstream forwarder
(`_request_upstream` over `_filtered_headers`), and a fan-out aggregator
(`patient_summary`).

Modelling conventions:
- Machine state visible to the claims (the `_rate_buckets` dict and the
  `_idem_cache` set) is passed explicitly; routes are pure functions from
  request, context and state to a result and a new state.
- PyJWT's `jwt.decode` is modelled on an abstract token value carrying its
  claims and a signature-validity flag; `jwt.decode(tok, ...)` verifies the
  signature, issuer, audience, not-before, and (unless disabled via
  `options={"verify_exp": False}`) the expiry.  Every token minted by the
  auth service (`make_token` in src/src/auth-service/app.py) carries
  `sub`, `iss`, `aud`, `nbf` and `exp`, so those claim fields are modelled
  as mandatory.
- Header names arriving through WSGI are title-case normalised by the HTTP
  layer, so two inbound names that agree modulo case are the same string;
  header maps are association lists and dict assignment is modelled as
  remove-then-append keyed on the lower-cased name.
- The network and the backends are an oracle `net : Nat → AttemptResult`
  giving the transport outcome of each forwarding attempt.
- `audit_log` only appends to a log file and never affects the response;
  it is omitted.
-/

namespace Gateway

/-- An error response `jsonify({"error": ..., "detail": ...}), status`. -/
structure ErrResp where
  status : Nat
  error : String
  detail : Option String
deriving DecidableEq

/-- Gateway configuration (environment variables read at startup). -/
structure Config where
  jwtIssuer : String
  jwtAudience : String
  rateLimitRpm : Nat
  retryCount : Nat
deriving DecidableEq

/-- The claim set of a decodable token.  `make_token` in the auth service
always sets `iss`, `aud`, `sub`, `roles`, `scopes`, `nbf` and `exp`
(epoch seconds), so these fields are mandatory in the model. -/
structure Claims where
  iss : String
  aud : String
  sub : String
  roles : List String
  scopes : List String
  nbf : Nat
  exp : Nat
deriving DecidableEq

/-- A raw bearer token as seen by `jwt.decode`: either not parseable at
all, or a JWT whose signature may or may not verify against the configured
secret and algorithm, carrying its claim set. -/
inductive Token where
  | malformed
  | signed (sigOk : Bool) (c : Claims)
deriving DecidableEq

/-- `jwt.decode(token, JWT_SECRET, algorithms=[JWT_ALG], audience=JWT_AUDIENCE,
issuer=JWT_ISSUER, ...)` at time `now`.  PyJWT verifies the signature, then
the registered claims: `nbf` (token valid only once `nbf ≤ now`), `exp`
(only when expiry verification is enabled; valid while `now < exp`),
`aud` and `iss` equality against the configured values.  Any failure raises,
which the model folds into `none`. -/
def pyjwtDecode (cfg : Config) (now : Nat) (verifyExp : Bool) : Token → Option Claims
  | .malformed => none
  | .signed sigOk c =>
      if sigOk = true ∧ c.nbf ≤ now ∧ (verifyExp = true → now < c.exp)
          ∧ c.aud = cfg.jwtAudience ∧ c.iss = cfg.jwtIssuer
      then some c else none

/-- `request.user` as set by `jwt_required`. -/
structure Principal where
  sub : String
  roles : List String
  scopes : List String
deriving DecidableEq

/-- The `Authorization` header of a request, already split by the HTTP
layer: absent or not of the form `Bearer <token>`, or a bearer token.
(The WSGI layer strips surrounding whitespace from header values, so a
value that starts with `"Bearer "` always carries a token after the
scheme.) -/
inductive AuthHdr where
  | absent
  | nonBearer (v : String)
  | bearer (tok : Token)
deriving DecidableEq

/-- An inbound HTTP request as the gateway sees it. -/
structure Req where
  method : String
  headers : List (String × String)
  auth : AuthHdr
  remoteAddr : String
deriving DecidableEq

/-- Python's `str.lower()` on ASCII header names. -/
def lowerStr (s : String) : String := ⟨s.data.map Char.toLower⟩

/-- `request.headers.get(n)`: case-insensitive lookup of a header. -/
def getHeader (hs : List (String × String)) (n : String) : Option String :=
  (hs.find? (fun kv => decide (lowerStr kv.1 = lowerStr n))).map (fun kv => kv.2)

/-- Value of header `n` in an outbound header map (case-insensitive). -/
def headerVal (hs : List (String × String)) (n : String) : Option String :=
  (hs.find? (fun kv => decide (lowerStr kv.1 = lowerStr n))).map (fun kv => kv.2)

/-- Drop every entry whose name equals `n` modulo case. -/
def removeH (hs : List (String × String)) (n : String) : List (String × String) :=
  hs.filter (fun kv => !(decide (lowerStr kv.1 = lowerStr n)))

/-- Dict assignment `headers[n] = v` (WSGI title-case normalisation makes
names that agree modulo case identical, so this is remove-then-append). -/
def setH (hs : List (String × String)) (n v : String) : List (String × String) :=
  removeH hs n ++ [(n, v)]

/-- The `HOP_BY_HOP` constant of the gateway. -/
def hopByHopNames : List String :=
  ["connection", "keep-alive", "proxy-authenticate", "proxy-authorization",
   "te", "trailers", "transfer-encoding", "upgrade"]

/-- `k.lower() in HOP_BY_HOP`. -/
def isHopByHop (n : String) : Bool := decide (lowerStr n ∈ hopByHopNames)

/-- The request-side strip test of `_filtered_headers`:
`lk in HOP_BY_HOP or lk == "host" or lk == "content-length"`. -/
def stripName (n : String) : Bool :=
  decide (lowerStr n ∈ hopByHopNames ∨ lowerStr n = "host" ∨ lowerStr n = "content-length")

/-- `_filtered_headers()`: copy the inbound headers minus hop-by-hop,
`Host` and `Content-Length`; when `request.user` is set, inject
`X-User-Id`, `X-User-Roles` and `X-User-Scopes` from the principal. -/
def filteredHeaders (hs : List (String × String)) (user : Option Principal) :
    List (String × String) :=
  match user with
  | none => hs.filter (fun kv => !(stripName kv.1))
  | some p =>
      setH (setH (setH (hs.filter (fun kv => !(stripName kv.1)))
        "X-User-Id" p.sub)
        "X-User-Roles" (String.intercalate "," p.roles))
        "X-User-Scopes" (String.intercalate "," p.scopes)

/-- A raw HTTP response obtained from a backend. -/
structure UpResp where
  status : Nat
  headers : List (String × String)
  content : String
deriving DecidableEq

/-- Outcome of one `requests.request` attempt: either a transport-level
failure (`requests.RequestException`: connect, timeout, transport error)
with its description `str(e)`, or an HTTP response (any status code). -/
inductive AttemptResult where
  | transportError (desc : String)
  | response (r : UpResp)
deriving DecidableEq

/-- Response-side header copy in `_request_upstream`:
`k.lower() not in HOP_BY_HOP and k.lower() != "content-length"`. -/
def filterRespHeaders (hs : List (String × String)) : List (String × String) :=
  hs.filter (fun kv => !(isHopByHop kv.1 || decide (lowerStr kv.1 = "content-length")))

/-- Modelled from the claim's words, for comparison only: a response header
copy that strips hop-by-hop headers and nothing else. -/
def specRespHeaders (hs : List (String × String)) : List (String × String) :=
  hs.filter (fun kv => !(isHopByHop kv.1))

/-- What `_request_upstream` returns: a passed-through backend response, or
`jsonify({"error": "bad_gateway", "detail": str(last_exc)}), 502`. -/
inductive FwdResult where
  | response (status : Nat) (headers : List (String × String)) (content : String)
  | badGateway (detail : String)
deriving DecidableEq

/-- The retry loop of `_request_upstream`, started at attempt index `i`
with `fuel` further attempts allowed after this one.  Returns the result
together with the list of back-off sleeps performed, in tenths of a
second: after failed attempt `j` the code sleeps `0.1 * (j + 1)` seconds,
recorded here as `j + 1`. -/
def upstreamLoop (net : Nat → AttemptResult) (i fuel : Nat) : FwdResult × List Nat :=
  match net i, fuel with
  | .response r, _ =>
      (.response r.status (filterRespHeaders r.headers) r.content, [])
  | .transportError d, 0 => (.badGateway d, [i + 1])
  | .transportError _, fuel + 1 =>
      ((upstreamLoop net (i + 1) fuel).1, (i + 1) :: (upstreamLoop net (i + 1) fuel).2)

/-- `_request_upstream`: `RETRY_COUNT + 1` total attempts. -/
def requestUpstream (retryCount : Nat) (net : Nat → AttemptResult) : FwdResult :=
  (upstreamLoop net 0 retryCount).1

/-- The back-off sleeps performed when attempts `i`, `i+1`, ... fail `k`
times in a row: after failed attempt `j` the code sleeps `0.1 * (j + 1)`
seconds (recorded in tenths). -/
def sleepList (i k : Nat) : List Nat :=
  match k with
  | 0 => []
  | k + 1 => (i + 1) :: sleepList (i + 1) k

/-- The result of a routed request.  `dup` stands for
`jsonify({"status": "duplicate", "detail": "already processed"}), 409`;
`fwd` records the headers sent upstream and the forwarder's result. -/
inductive RouteResult where
  | err (e : ErrResp)
  | dup
  | fwd (sentHeaders : List (String × String)) (res : FwdResult)
deriving DecidableEq

/-- HTTP status of a forwarder result. -/
def FwdResult.statusOf : FwdResult → Nat
  | .response s _ _ => s
  | .badGateway _ => 502

/-- HTTP status of a route result. -/
def RouteResult.statusOf : RouteResult → Nat
  | .err e => e.status
  | .dup => 409
  | .fwd _ f => f.statusOf

/-- The `_rate_buckets` dict: key to `(window id, count)`. -/
abbrev RateMap := String → Option (Nat × Nat)

/-- Dict assignment on a rate map. -/
def mapSet (m : RateMap) (k : String) (v : Nat × Nat) : RateMap :=
  fun x => if x = k then some v else m x

/-- First phase of `rate_limited`: `win_count = _rate_buckets.get(key,
(window, 0)); if win_count[0] != window: _rate_buckets[key] = (window, 0)`. -/
def rateReset (m : RateMap) (key : String) (window : Nat) : RateMap :=
  if ((m key).getD (window, 0)).1 ≠ window then mapSet m key (window, 0) else m

/-- Second phase of `rate_limited`: deny if the pre-increment count has
reached the ceiling, else store the incremented count and allow. -/
def rateCheck (rpm : Nat) (m1 : RateMap) (key : String) (window : Nat) :
    Bool × RateMap :=
  if rpm ≤ ((m1 key).getD (window, 0)).2 then (false, m1)
  else (true, mapSet m1 key (window, ((m1 key).getD (window, 0)).2 + 1))

/-- One admission decision of `rate_limited` for `key` in `window`:
`true` with the updated bucket map when the request is allowed. -/
def rateStep (rpm : Nat) (m : RateMap) (key : String) (window : Nat) :
    Bool × RateMap :=
  rateCheck rpm (rateReset m key window) key window

/-- The bucket map after `k` consecutive requests for `key`, all inside
`window`. -/
def rateRun (rpm : Nat) (key : String) (window : Nat) (m : RateMap) : Nat → RateMap
  | 0 => m
  | k + 1 => (rateStep rpm (rateRun rpm key window m k) key window).2

/-- The user part of the rate-limit key: the token's `sub` when the
`Authorization` header parses and decodes with expiry verification
disabled (`options={"verify_exp": False}`), else `"anon"`. -/
def rateUserKey (cfg : Config) (now : Nat) (req : Req) : String :=
  match req.auth with
  | .bearer tok =>
      match pyjwtDecode cfg now false tok with
      | some c => c.sub
      | none => "anon"
  | _ => "anon"

/-- `key = f"{user_key}:{request.remote_addr}"`. -/
def rateKey (cfg : Config) (now : Nat) (req : Req) : String :=
  rateUserKey cfg now req ++ ":" ++ req.remoteAddr

/-- Process-wide mutable gateway state: `_rate_buckets` and `_idem_cache`. -/
structure GState where
  rateBuckets : RateMap
  idemCache : List String

/-- Per-request ambient context: the clock and the transport oracle. -/
structure ReqCtx where
  now : Nat
  net : Nat → AttemptResult

/-- The `rate_limited` decorator around a continuation. -/
def runRateLimited (cfg : Config) (ctx : ReqCtx) (req : Req) (st : GState)
    (kont : GState → RouteResult × GState) : RouteResult × GState :=
  if (rateStep cfg.rateLimitRpm st.rateBuckets (rateKey cfg ctx.now req) (ctx.now / 60)).1 then
    kont { st with
      rateBuckets :=
        (rateStep cfg.rateLimitRpm st.rateBuckets (rateKey cfg ctx.now req) (ctx.now / 60)).2 }
  else
    (.err ⟨429, "rate_limited", some "Too many requests"⟩,
     { st with
       rateBuckets :=
         (rateStep cfg.rateLimitRpm st.rateBuckets (rateKey cfg ctx.now req) (ctx.now / 60)).2 })

/-- The scope/role checks of `jwt_required` once the token decoded:
`if scopes and not scopes.issubset(req_scopes)` then forbidden, then
`if roles and roles.isdisjoint(req_roles)` then forbidden, else proceed
with `request.user` set from the payload. -/
def policyCheck (scopes roles : List String) (c : Claims) : Except ErrResp Principal :=
  if scopes ≠ [] ∧ ¬(∀ s ∈ scopes, s ∈ c.scopes) then
    .error ⟨403, "forbidden", some "missing scopes"⟩
  else if roles ≠ [] ∧ (∀ r ∈ roles, r ∉ c.roles) then
    .error ⟨403, "forbidden", some "missing role"⟩
  else
    .ok ⟨c.sub, c.roles, c.scopes⟩

/-- Token extraction and verification of `jwt_required` on the
`Authorization` header. -/
def jwtCheck (cfg : Config) (now : Nat) (scopes roles : List String) :
    AuthHdr → Except ErrResp Principal
  | .absent => .error ⟨401, "unauthorized", none⟩
  | .nonBearer _ => .error ⟨401, "unauthorized", none⟩
  | .bearer tok =>
      match pyjwtDecode cfg now true tok with
      | none => .error ⟨401, "unauthorized", none⟩
      | some c => policyCheck scopes roles c

/-- The `jwt_required(scopes, roles)` decorator: extract and decode the
bearer token, then check that the required scopes are a subset of the
token's scopes and (when a role set is configured) that the token's roles
meet the allowed roles. -/
def jwtRequired (cfg : Config) (now : Nat) (scopes roles : List String) (req : Req) :
    Except ErrResp Principal :=
  jwtCheck cfg now scopes roles req.auth

/-- `jwt_required` as middleware around a continuation. -/
def runJwt (cfg : Config) (ctx : ReqCtx) (scopes roles : List String) (req : Req)
    (st : GState) (kont : Principal → RouteResult × GState) : RouteResult × GState :=
  match jwtRequired cfg ctx.now scopes roles req with
  | .error e => (.err e, st)
  | .ok p => kont p

/-- The body of `require_idempotency_for_post` once the header has been
read: `if not key` (absent or empty) is a 400; a key already in
`_idem_cache` is answered with the duplicate marker; a fresh key is added
to the cache and the wrapped handler is invoked. -/
def idemGuardStep (st : GState) (kont : GState → RouteResult × GState) :
    Option String → RouteResult × GState
  | none => (.err ⟨400, "idempotency_required", none⟩, st)
  | some key =>
      if key = "" then (.err ⟨400, "idempotency_required", none⟩, st)
      else if key ∈ st.idemCache then (.dup, st)
      else kont { st with idemCache := key :: st.idemCache }

/-- The `require_idempotency_for_post` decorator: the guard applies only
to POST requests. -/
def requireIdempotencyForPost (req : Req) (st : GState)
    (kont : GState → RouteResult × GState) : RouteResult × GState :=
  if req.method = "POST" then
    idemGuardStep st kont (getHeader req.headers "Idempotency-Key")
  else kont st

/-- Allowed roles of the `/patients` routes. -/
def patientsRoles : List String := ["MEDICO", "ENFERMEIRO", "RECEPCIONISTA", "ADMIN"]

/-- Allowed roles of the `/appointments` routes. -/
def appointmentsRoles : List String := ["MEDICO", "RECEPCIONISTA", "ADMIN"]

/-- Route `POST /auth/login`: rate-limited, proxied without authentication. -/
def authLogin (cfg : Config) (ctx : ReqCtx) (req : Req) (st : GState) :
    RouteResult × GState :=
  runRateLimited cfg ctx req st fun st1 =>
    (.fwd (filteredHeaders req.headers none) (requestUpstream cfg.retryCount ctx.net), st1)

/-- Route `POST /auth/refresh`: rate-limited, proxied without authentication. -/
def authRefresh (cfg : Config) (ctx : ReqCtx) (req : Req) (st : GState) :
    RouteResult × GState :=
  runRateLimited cfg ctx req st fun st1 =>
    (.fwd (filteredHeaders req.headers none) (requestUpstream cfg.retryCount ctx.net), st1)

/-- Route `GET/POST /patients` (`patients_collection`). -/
def patientsCollection (cfg : Config) (ctx : ReqCtx) (req : Req) (st : GState) :
    RouteResult × GState :=
  runRateLimited cfg ctx req st fun st1 =>
    runJwt cfg ctx ["patients:read"] patientsRoles req st1 fun p =>
      if req.method = "POST" ∧ "patients:write" ∉ p.scopes then
        (.err ⟨403, "forbidden", some "patients:write required"⟩, st1)
      else
        (.fwd (filteredHeaders req.headers (some p)) (requestUpstream cfg.retryCount ctx.net),
         st1)

/-- Route `GET/PUT/DELETE /patients/<suffix>` (`patients_resource`). -/
def patientsResource (cfg : Config) (ctx : ReqCtx) (req : Req) (st : GState) :
    RouteResult × GState :=
  runRateLimited cfg ctx req st fun st1 =>
    runJwt cfg ctx ["patients:read"] patientsRoles req st1 fun p =>
      if (req.method = "PUT" ∨ req.method = "DELETE") ∧ "patients:write" ∉ p.scopes then
        (.err ⟨403, "forbidden", some "patients:write required"⟩, st1)
      else
        (.fwd (filteredHeaders req.headers (some p)) (requestUpstream cfg.retryCount ctx.net),
         st1)

/-- Route `GET/POST /appointments` (`appointments_collection`): the
idempotency guard wraps the handler, inside `jwt_required`, inside
`rate_limited` — exactly the decorator order in the source. -/
def appointmentsCollection (cfg : Config) (ctx : ReqCtx) (req : Req) (st : GState) :
    RouteResult × GState :=
  runRateLimited cfg ctx req st fun st1 =>
    runJwt cfg ctx ["scheduling:read"] appointmentsRoles req st1 fun p =>
      requireIdempotencyForPost req st1 fun st2 =>
        if req.method = "POST" ∧ "scheduling:write" ∉ p.scopes then
          (.err ⟨403, "forbidden", some "scheduling:write required"⟩, st2)
        else
          (.fwd (filteredHeaders req.headers (some p)) (requestUpstream cfg.retryCount ctx.net),
           st2)

/-- JSON values, as far as the aggregator's merge needs them. -/
inductive Json where
  | null
  | str (s : String)
  | num (n : Int)
  | arr (xs : List Json)
  | obj (fields : List (String × Json))

/-- One aggregator branch (`_call`): a decoded JSON body on success, or
`{"error": str(e)}` on any `requests.RequestException` (connect failure,
timeout, or a `raise_for_status` error). -/
def callSection : Except String Json → Json
  | .ok v => v
  | .error e => .obj [("error", .str e)]

/-- The merge of `patient_summary`: the three branch outcomes are combined
into `{"patient": ..., "recentRecords": ..., "upcomingAppointments": ...}`
with status 200, each section depending only on its own branch. -/
def patientSummary (rPatient rRecords rSchedule : Except String Json) : Nat × Json :=
  (200,
   .obj [("patient", callSection rPatient),
         ("recentRecords", callSection rRecords),
         ("upcomingAppointments", callSection rSchedule)])

/-- Lookup a key in a JSON object. -/
def jsonGet (j : Json) (k : String) : Option Json :=
  match j with
  | .obj fs => (fs.find? (fun f => decide (f.1 = k))).map (fun f => f.2)
  | _ => none

/-- Token verification failed for this request: the `Authorization` header
is absent or not a bearer header (both vacuously satisfy this form), or it
carries a bearer token on which `jwt.decode` (with expiry verification)
raises. -/
def authFailed (cfg : Config) (now : Nat) (req : Req) : Prop :=
  ∀ tok, req.auth = .bearer tok → pyjwtDecode cfg now true tok = none

/- Concrete inputs used by the closed theorems and witnesses below. -/

/-- Default configuration: `JWT_ISS`, `JWT_AUD`, `RATE_LIMIT_RPM`, `RETRY_COUNT`. -/
def cfg0 : Config := ⟨"auth-service", "emr-gateway", 120, 1⟩

/-- A request context at `now = 100` whose backend is unreachable. -/
def ctx0 : ReqCtx := ⟨100, fun _ => .transportError "down"⟩

/-- Fresh gateway state: empty rate buckets, empty idempotency cache. -/
def st0 : GState := ⟨fun _ => none, []⟩

/-- Claims of a principal holding `scheduling:read` but not `scheduling:write`. -/
def schedReadClaims : Claims :=
  ⟨"auth-service", "emr-gateway", "medico1", ["MEDICO"], ["scheduling:read"], 0, 2000⟩

/-- Claims of a principal holding both scheduling scopes. -/
def schedWriteClaims : Claims :=
  ⟨"auth-service", "emr-gateway", "medico2", ["MEDICO"],
   ["scheduling:read", "scheduling:write"], 0, 2000⟩

/-- `POST /appointments` with a fresh idempotency key by the read-only principal. -/
def postNoWriteReq : Req :=
  ⟨"POST", [("Idempotency-Key", "K1")], .bearer (.signed true schedReadClaims), "1.2.3.4"⟩

/-- The same `POST /appointments`, same idempotency key, by the write-capable principal. -/
def postWriteReq : Req :=
  ⟨"POST", [("Idempotency-Key", "K1")], .bearer (.signed true schedWriteClaims), "1.2.3.4"⟩

/-- Claims of the nurse principal of the access-policy example. -/
def nurseClaims : Claims :=
  ⟨"auth-service", "emr-gateway", "nurse1", ["ENFERMEIRO"], ["patients:read"], 0, 2000⟩

/-- A request authenticated as the nurse principal. -/
def nurseReq : Req := ⟨"GET", [], .bearer (.signed true nurseClaims), "1.2.3.4"⟩

/-- A request with no `Authorization` header. -/
def anonReq : Req := ⟨"GET", [], .absent, "1.2.3.4"⟩

/-- A POST carrying a fresh idempotency key. -/
def idemReq : Req := ⟨"POST", [("Idempotency-Key", "K9")], .absent, "1.2.3.4"⟩

/-- A handler continuation standing for the forward step. -/
def kont0 : GState → RouteResult × GState := fun s => (.fwd [] (.badGateway "x"), s)

/-- Inbound headers carrying `Host`, a hop-by-hop header and a custom header. -/
def hdrsA : List (String × String) := [("Host", "gw"), ("Connection", "close"), ("X-Trace", "7")]

/-- A verified principal. -/
def principalA : Principal := ⟨"u1", ["MEDICO"], ["patients:read"]⟩

/-- An unauthenticated request that tries to spoof the identity header. -/
def spoofReq : Req := ⟨"POST", [("X-User-Id", "spoof")], .absent, "2.2.2.2"⟩

/-- A transport oracle that fails once and then answers. -/
def netA : Nat → AttemptResult :=
  fun n => if n = 0 then .transportError "boom" else .response ⟨200, [("X-A", "1")], "ok"⟩

/-- Claims with a `nbf` in the future relative to `now = 100`. -/
def nbfClaims : Claims := ⟨"auth-service", "emr-gateway", "alice", [], [], 200, 10000⟩

/-- A request bearing the not-yet-valid (but correctly signed) token. -/
def nbfReq : Req := ⟨"POST", [], .bearer (.signed true nbfClaims), "9.9.9.9"⟩

/-- Claims of a token already expired at `now = 100`. -/
def expiredClaims : Claims := ⟨"auth-service", "emr-gateway", "bob", [], [], 0, 50⟩

/-- A request bearing the expired token. -/
def expiredReq : Req := ⟨"POST", [], .bearer (.signed true expiredClaims), "1.1.1.1"⟩

/- General lemmas about header association lists. -/

theorem find?_filter_imp {α : Type} (p q : α → Bool) (l : List α)
    (h : ∀ a, q a = false → p a = false) : (l.filter q).find? p = l.find? p := by
  induction l with
  | nil => rfl
  | cons a t ih =>
    cases hq : q a with
    | true =>
      rw [List.filter_cons_of_pos hq]
      cases hp : p a with
      | true => rw [List.find?_cons_of_pos _ hp, List.find?_cons_of_pos _ hp]
      | false =>
        rw [List.find?_cons_of_neg _ (by simp [hp]), List.find?_cons_of_neg _ (by simp [hp]), ih]
    | false =>
      rw [List.filter_cons_of_neg (by simp [hq]), List.find?_cons_of_neg _ (by simp [h a hq]), ih]

theorem headerVal_append (hs₁ hs₂ : List (String × String)) (n : String) :
    headerVal (hs₁ ++ hs₂) n =
      match headerVal hs₁ n with
      | some v => some v
      | none => headerVal hs₂ n := by
  unfold headerVal
  rw [List.find?_append]
  cases hf : hs₁.find? (fun kv => decide (lowerStr kv.1 = lowerStr n)) with
  | none => simp [Option.or]
  | some a => simp [Option.or]

theorem headerVal_removeH_ne (hs : List (String × String)) (n n' : String)
    (h : lowerStr n' ≠ lowerStr n) :
    headerVal (removeH hs n) n' = headerVal hs n' := by
  unfold headerVal removeH
  rw [find?_filter_imp]
  intro a ha
  have ha' : lowerStr a.1 = lowerStr n := by
    revert ha; cases hd : decide (lowerStr a.1 = lowerStr n) with
    | true => intro _; exact of_decide_eq_true hd
    | false => intro hcon; simp [hd] at hcon
  apply decide_eq_false
  intro he
  exact h (he.symm.trans ha')

theorem removeH_find?_none (hs : List (String × String)) (n : String) :
    (removeH hs n).find? (fun kv => decide (lowerStr kv.1 = lowerStr n)) = none := by
  apply List.find?_eq_none.mpr
  intro kv hkv
  simp only [removeH, List.mem_filter] at hkv
  simpa using hkv.2

theorem headerVal_setH_self (hs : List (String × String)) (n v : String) :
    headerVal (setH hs n v) n = some v := by
  unfold setH headerVal
  rw [List.find?_append, removeH_find?_none hs n]
  simp [List.find?]

theorem headerVal_setH_ne (hs : List (String × String)) (n v n' : String)
    (h : lowerStr n' ≠ lowerStr n) :
    headerVal (setH hs n v) n' = headerVal hs n' := by
  have h1 : headerVal (removeH hs n) n' = headerVal hs n' := headerVal_removeH_ne hs n n' h
  unfold setH
  rw [headerVal_append, h1]
  cases hv : headerVal hs n' with
  | some w => rfl
  | none =>
    show headerVal [(n, v)] n' = none
    unfold headerVal
    rw [List.find?_cons_of_neg _ (by simpa using fun he => h he.symm)]
    rfl

theorem headerVal_filter_not_stripped (hs : List (String × String)) (n : String)
    (h : stripName n = false) :
    headerVal (hs.filter (fun kv => !(stripName kv.1))) n = headerVal hs n := by
  unfold headerVal
  rw [find?_filter_imp]
  intro a ha
  have ha' : stripName a.1 = true := by
    revert ha; cases hs' : stripName a.1 <;> simp [hs']
  apply decide_eq_false
  intro he
  unfold stripName at ha' h
  rw [he] at ha'
  rw [ha'] at h
  cases h

theorem mem_setH {kv : String × String} (hs : List (String × String)) (n v : String)
    (h : kv ∈ setH hs n v) : kv ∈ hs ∨ kv = (n, v) := by
  simp only [setH, removeH, List.mem_append, List.mem_filter, List.mem_singleton] at h
  rcases h with ⟨h1, _⟩ | h2
  · exact Or.inl h1
  · exact Or.inr h2

/- Lemmas about the fixed-window rate limiter. -/

theorem mapSet_self (m : RateMap) (k : String) (v : Nat × Nat) : mapSet m k v k = some v := by
  simp [mapSet]

theorem rateStep_at (rpm : Nat) (M : RateMap) (key : String) (window c : Nat)
    (hM : M key = some (window, c)) :
    rateStep rpm M key window =
      if rpm ≤ c then (false, M) else (true, mapSet M key (window, c + 1)) := by
  have h1 : rateReset M key window = M := by
    unfold rateReset; rw [hM]; simp
  unfold rateStep
  rw [h1]
  unfold rateCheck
  rw [hM]
  rfl

theorem rateRun_key (rpm : Nat) (key : String) (window : Nat) (m : RateMap)
    (hrpm : 0 < rpm) (hfresh : ∀ wc, m key = some wc → wc.1 ≠ window) :
    ∀ k, rateRun rpm key window m (k + 1) key = some (window, min (k + 1) rpm) := by
  intro k
  induction k with
  | zero =>
    show (rateStep rpm m key window).2 key = some (window, min 1 rpm)
    have hmin : min 1 rpm = 1 := by omega
    rw [hmin]
    unfold rateStep
    cases hm : m key with
    | none =>
      have h1 : rateReset m key window = m := by unfold rateReset; rw [hm]; simp
      rw [h1]
      unfold rateCheck
      rw [hm]
      rw [if_neg (by simp; omega)]
      exact mapSet_self ..
    | some wc =>
      have hne := hfresh wc hm
      have h1 : rateReset m key window = mapSet m key (window, 0) := by
        unfold rateReset; rw [hm]; simp [hne]
      rw [h1]
      unfold rateCheck
      rw [mapSet_self]
      rw [if_neg (by simp; omega)]
      exact mapSet_self ..
  | succ k ih =>
    show (rateStep rpm (rateRun rpm key window m (k + 1)) key window).2 key = _
    rw [rateStep_at rpm _ key window (min (k + 1) rpm) ih]
    by_cases hk : rpm ≤ k + 1
    · rw [if_pos (by omega)]
      show rateRun rpm key window m (k + 1) key = _
      rw [ih]
      have : min (k + 1) rpm = min (k + 1 + 1) rpm := by omega
      rw [this]
    · rw [if_neg (by omega)]
      show mapSet _ key (window, min (k + 1) rpm + 1) key = _
      rw [mapSet_self]
      have : min (k + 1) rpm + 1 = min (k + 1 + 1) rpm := by omega
      rw [this]

theorem rate_allowed_iff (rpm : Nat) (key : String) (window : Nat) (m : RateMap)
    (hrpm : 0 < rpm) (hfresh : ∀ wc, m key = some wc → wc.1 ≠ window) :
    ∀ k, (rateStep rpm (rateRun rpm key window m k) key window).1 = decide (k < rpm) := by
  intro k
  cases k with
  | zero =>
    show (rateStep rpm m key window).1 = decide (0 < rpm)
    rw [decide_eq_true hrpm]
    unfold rateStep
    cases hm : m key with
    | none =>
      have h1 : rateReset m key window = m := by unfold rateReset; rw [hm]; simp
      rw [h1]
      unfold rateCheck
      rw [hm]
      rw [if_neg (by simp; omega)]
    | some wc =>
      have hne := hfresh wc hm
      have h1 : rateReset m key window = mapSet m key (window, 0) := by
        unfold rateReset; rw [hm]; simp [hne]
      rw [h1]
      unfold rateCheck
      rw [mapSet_self]
      rw [if_neg (by simp; omega)]
  | succ k =>
    rw [rateStep_at rpm _ key window (min (k + 1) rpm)
      (rateRun_key rpm key window m hrpm hfresh k)]
    by_cases hk : rpm ≤ k + 1
    · rw [if_pos (by omega), decide_eq_false (by omega : ¬(k + 1 < rpm))]
    · rw [if_neg (by omega), decide_eq_true (by omega : k + 1 < rpm)]

theorem rate_deny_stable (rpm : Nat) (key : String) (window : Nat) (m : RateMap)
    (hrpm : 0 < rpm) (hfresh : ∀ wc, m key = some wc → wc.1 ≠ window) :
    ∀ k, rpm ≤ k → rateRun rpm key window m (k + 1) = rateRun rpm key window m k := by
  intro k hk
  obtain ⟨k', rfl⟩ : ∃ k', k = k' + 1 := ⟨k - 1, by omega⟩
  show (rateStep rpm (rateRun rpm key window m (k' + 1)) key window).2 = _
  rw [rateStep_at rpm _ key window (min (k' + 1) rpm)
    (rateRun_key rpm key window m hrpm hfresh k')]
  rw [if_pos (by omega)]

theorem rate_next_window (rpm : Nat) (key : String) (window : Nat) (m : RateMap)
    (hrpm : 0 < rpm) (hfresh : ∀ wc, m key = some wc → wc.1 ≠ window) :
    ∀ k, (rateStep rpm (rateRun rpm key window m (k + 1)) key (window + 1)).1 = true
      ∧ (rateStep rpm (rateRun rpm key window m (k + 1)) key (window + 1)).2 key =
          some (window + 1, 1) := by
  intro k
  have hkey := rateRun_key rpm key window m hrpm hfresh k
  have h1 : rateReset (rateRun rpm key window m (k + 1)) key (window + 1) =
      mapSet (rateRun rpm key window m (k + 1)) key (window + 1, 0) := by
    unfold rateReset; rw [hkey]; rw [if_pos (by simp)]
  constructor
  · show (rateCheck rpm (rateReset (rateRun rpm key window m (k + 1)) key (window + 1))
        key (window + 1)).1 = true
    rw [h1]
    unfold rateCheck
    rw [mapSet_self]
    rw [if_neg (by simp; omega)]
  · show (rateCheck rpm (rateReset (rateRun rpm key window m (k + 1)) key (window + 1))
        key (window + 1)).2 key = _
    rw [h1]
    unfold rateCheck
    rw [mapSet_self]
    rw [if_neg (by simp; omega)]
    exact mapSet_self ..

/- Lemmas about the forwarder's retry loop. -/

theorem upstreamLoop_response (net : Nat → AttemptResult) (i fuel : Nat) (r : UpResp)
    (h : net i = .response r) :
    upstreamLoop net i fuel =
      (.response r.status (filterRespHeaders r.headers) r.content, []) := by
  cases fuel with
  | zero => unfold upstreamLoop; rw [h]
  | succ fuel => unfold upstreamLoop; rw [h]

theorem upstreamLoop_error_zero (net : Nat → AttemptResult) (i : Nat) (d : String)
    (h : net i = .transportError d) :
    upstreamLoop net i 0 = (.badGateway d, [i + 1]) := by
  unfold upstreamLoop; rw [h]

theorem upstreamLoop_error_succ (net : Nat → AttemptResult) (i fuel : Nat) (d : String)
    (h : net i = .transportError d) :
    upstreamLoop net i (fuel + 1) =
      ((upstreamLoop net (i + 1) fuel).1, (i + 1) :: (upstreamLoop net (i + 1) fuel).2) := by
  conv in upstreamLoop net i (fuel + 1) => unfold upstreamLoop
  rw [h]

theorem sleepList_linear : ∀ (k i : Nat),
    sleepList i k = (List.range k).map (fun j => i + j + 1) := by
  intro k
  induction k with
  | zero => intro i; rfl
  | succ k ih =>
    intro i
    show (i + 1) :: sleepList (i + 1) k = _
    rw [ih (i + 1), List.range_succ_eq_map, List.map_cons, List.map_map]
    refine congrArg₂ List.cons rfl ?_
    refine congrArg (fun f => List.map f (List.range k)) ?_
    funext j
    show i + 1 + j + 1 = i + (j + 1) + 1
    omega

theorem upstreamLoop_success (net : Nat → AttemptResult) (r : UpResp) :
    ∀ (fuel i k : Nat), k ≤ fuel →
      (∀ j, j < k → ∃ d, net (i + j) = .transportError d) →
      net (i + k) = .response r →
      upstreamLoop net i fuel =
        (.response r.status (filterRespHeaders r.headers) r.content, sleepList i k) := by
  intro fuel
  induction fuel with
  | zero =>
    intro i k hk hfail hsucc
    have hk0 : k = 0 := by omega
    subst hk0
    rw [Nat.add_zero] at hsucc
    rw [upstreamLoop_response net i 0 r hsucc]
    rfl
  | succ fuel ih =>
    intro i k hk hfail hsucc
    cases k with
    | zero =>
      rw [Nat.add_zero] at hsucc
      rw [upstreamLoop_response net i (fuel + 1) r hsucc]
      rfl
    | succ k' =>
      obtain ⟨d, hd⟩ := hfail 0 (by omega)
      rw [Nat.add_zero] at hd
      rw [upstreamLoop_error_succ net i fuel d hd]
      have ih' := ih (i + 1) k' (by omega)
        (fun j hj => by
          have hh := hfail (j + 1) (by omega)
          rwa [show i + (j + 1) = i + 1 + j by omega] at hh)
        (by rwa [show i + (k' + 1) = i + 1 + k' by omega] at hsucc)
      rw [ih']
      rfl

theorem upstreamLoop_all_fail (net : Nat → AttemptResult) (d : Nat → String) :
    ∀ (fuel i : Nat), (∀ j, j ≤ fuel → net (i + j) = .transportError (d (i + j))) →
      upstreamLoop net i fuel =
        (.badGateway (d (i + fuel)), sleepList i (fuel + 1)) := by
  intro fuel
  induction fuel with
  | zero =>
    intro i h
    have h0 := h 0 (by omega)
    rw [Nat.add_zero] at h0
    rw [upstreamLoop_error_zero net i (d i) h0]
    rfl
  | succ fuel ih =>
    intro i h
    have h0 := h 0 (by omega)
    rw [Nat.add_zero] at h0
    rw [upstreamLoop_error_succ net i fuel (d i) h0]
    have ih' := ih (i + 1) (fun j hj => by
      have hh := h (j + 1) (by omega)
      rwa [show i + (j + 1) = i + 1 + j by omega] at hh)
    rw [ih']
    rw [show i + 1 + fuel = i + (fuel + 1) by omega]
    rfl

/- Lemmas about the token verifier and the middleware combinators. -/

theorem jwtRequired_unauthorized (cfg : Config) (now : Nat) (scopes roles : List String)
    (req : Req) (h : authFailed cfg now req) :
    jwtRequired cfg now scopes roles req = .error ⟨401, "unauthorized", none⟩ := by
  unfold jwtRequired
  cases hauth : req.auth with
  | absent => rfl
  | nonBearer v => rfl
  | bearer tok =>
    have hd := h tok hauth
    show (match pyjwtDecode cfg now true tok with
      | none => (Except.error ⟨401, "unauthorized", none⟩ : Except ErrResp Principal)
      | some c => policyCheck scopes roles c) = _
    rw [hd]

theorem jwtRequired_decoded (cfg : Config) (now : Nat) (scopes roles : List String)
    (req : Req) (tok : Token) (c : Claims)
    (hauth : req.auth = .bearer tok) (hdec : pyjwtDecode cfg now true tok = some c) :
    jwtRequired cfg now scopes roles req = policyCheck scopes roles c := by
  unfold jwtRequired
  rw [hauth]
  show (match pyjwtDecode cfg now true tok with
    | none => (Except.error ⟨401, "unauthorized", none⟩ : Except ErrResp Principal)
    | some c => policyCheck scopes roles c) = _
  rw [hdec]

theorem runRateLimited_allowed (cfg : Config) (ctx : ReqCtx) (req : Req) (st : GState)
    (h : (rateStep cfg.rateLimitRpm st.rateBuckets (rateKey cfg ctx.now req)
        (ctx.now / 60)).1 = true)
    (kont : GState → RouteResult × GState) :
    runRateLimited cfg ctx req st kont =
      kont { st with
        rateBuckets :=
          (rateStep cfg.rateLimitRpm st.rateBuckets (rateKey cfg ctx.now req)
            (ctx.now / 60)).2 } := by
  unfold runRateLimited
  rw [h]
  rw [if_pos rfl]

theorem runRateLimited_denied (cfg : Config) (ctx : ReqCtx) (req : Req) (st : GState)
    (h : (rateStep cfg.rateLimitRpm st.rateBuckets (rateKey cfg ctx.now req)
        (ctx.now / 60)).1 = false)
    (kont : GState → RouteResult × GState) :
    runRateLimited cfg ctx req st kont =
      (.err ⟨429, "rate_limited", some "Too many requests"⟩,
       { st with
         rateBuckets :=
           (rateStep cfg.rateLimitRpm st.rateBuckets (rateKey cfg ctx.now req)
             (ctx.now / 60)).2 }) := by
  unfold runRateLimited
  rw [h]
  rw [if_neg (by decide)]

theorem runJwt_error (cfg : Config) (ctx : ReqCtx) (scopes roles : List String)
    (req : Req) (e : ErrResp)
    (h : jwtRequired cfg ctx.now scopes roles req = .error e)
    (st : GState) (kont : Principal → RouteResult × GState) :
    runJwt cfg ctx scopes roles req st kont = (.err e, st) := by
  unfold runJwt
  rw [h]

theorem runJwt_ok (cfg : Config) (ctx : ReqCtx) (scopes roles : List String)
    (req : Req) (p : Principal)
    (h : jwtRequired cfg ctx.now scopes roles req = .ok p)
    (st : GState) (kont : Principal → RouteResult × GState) :
    runJwt cfg ctx scopes roles req st kont = kont p := by
  unfold runJwt
  rw [h]

/- Claim theorems. -/

/-- Claim C1 (code bug witness): on `POST /appointments` by an
authenticated principal whose scopes lack `scheduling:write`, the gateway
does answer 403 Forbidden, but — contrary to the claim and to §5 of the
spec ("idempotency keys must not be consumed for forbidden requests") —
the `Idempotency-Key` IS consumed: the guard adds the key to `_idem_cache`
before the in-handler write-scope check runs, so a later request with the
same key (even one by a fully authorized principal) is rejected as a
duplicate.  All four conjuncts evaluate the embedded route at the concrete
failing input. -/
theorem c1_forbidden_post_consumes_idempotency_key :
    (appointmentsCollection cfg0 ctx0 postNoWriteReq st0).1 =
      .err ⟨403, "forbidden", some "scheduling:write required"⟩
  ∧ (appointmentsCollection cfg0 ctx0 postNoWriteReq st0).2.idemCache = ["K1"]
  ∧ st0.idemCache = []
  ∧ (appointmentsCollection cfg0 ctx0 postWriteReq
      (appointmentsCollection cfg0 ctx0 postNoWriteReq st0).2).1 = .dup := by
  decide

/-- Claim C2: for a fresh window (the stored window id for the key, if
any, differs from the current one) and a positive ceiling `rpm`, the
`(k+1)`-th request of the window is allowed exactly when `k < rpm`; after
`k+1` requests the stored bucket is `(window, min (k+1) rpm)` (so the
count never exceeds the ceiling); a denied request leaves the bucket map
unchanged; any denied step yields the 429 `rate_limited` response; and in
the next window the first request is allowed again with the count reset
(the stored bucket becomes `(window+1, 1)`). -/
theorem c2_rate_limiter_window (rpm : Nat) (key : String) (window : Nat) (m : RateMap)
    (hrpm : 0 < rpm) (hfresh : ∀ wc, m key = some wc → wc.1 ≠ window) :
    (∀ k, (rateStep rpm (rateRun rpm key window m k) key window).1 = decide (k < rpm))
  ∧ (∀ k, rateRun rpm key window m (k + 1) key = some (window, min (k + 1) rpm))
  ∧ (∀ k, rpm ≤ k → rateRun rpm key window m (k + 1) = rateRun rpm key window m k)
  ∧ (∀ (cfg : Config) (ctx : ReqCtx) (req : Req) (st : GState)
        (kont : GState → RouteResult × GState),
      (rateStep cfg.rateLimitRpm st.rateBuckets (rateKey cfg ctx.now req)
        (ctx.now / 60)).1 = false →
      (runRateLimited cfg ctx req st kont).1 =
        .err ⟨429, "rate_limited", some "Too many requests"⟩)
  ∧ (∀ k, (rateStep rpm (rateRun rpm key window m (k + 1)) key (window + 1)).1 = true
      ∧ (rateStep rpm (rateRun rpm key window m (k + 1)) key (window + 1)).2 key =
          some (window + 1, 1)) := by
  refine ⟨rate_allowed_iff rpm key window m hrpm hfresh,
          rateRun_key rpm key window m hrpm hfresh,
          rate_deny_stable rpm key window m hrpm hfresh, ?_,
          rate_next_window rpm key window m hrpm hfresh⟩
  intro cfg ctx req st kont hdeny
  rw [runRateLimited_denied cfg ctx req st hdeny kont]

/-- Witness for C2: with ceiling 2, after two requests in window 7 the
third is denied (`decide (2 < 2) = false`). -/
theorem c2_rate_limiter_window_witness :
    (rateStep 2 (rateRun 2 "u1:1.2.3.4" 7 (fun _ => none) 2) "u1:1.2.3.4" 7).1 =
      decide (2 < 2) :=
  (c2_rate_limiter_window 2 "u1:1.2.3.4" 7 (fun _ => none) (by decide)
    (fun wc hwc => Option.noConfusion hwc)).1 2

/-- Claim C4: on a POST to the idempotency-guarded route, a missing (or
empty, which Python's `if not key` also treats as missing) key is rejected
with the 400 client error without invoking the wrapped handler and without
touching the cache; a key already seen is answered with the fixed
duplicate marker (409) regardless of the wrapped handler, without invoking
it and without touching the cache; an unseen key is recorded in the cache
first and only then is the wrapped handler (the forward) invoked, on the
state that already contains the key. -/
theorem c4_idempotency_guard (req : Req) (st : GState)
    (kont : GState → RouteResult × GState) (hpost : req.method = "POST") :
    (getHeader req.headers "Idempotency-Key" = none →
      requireIdempotencyForPost req st kont =
        (.err ⟨400, "idempotency_required", none⟩, st))
  ∧ (getHeader req.headers "Idempotency-Key" = some "" →
      requireIdempotencyForPost req st kont =
        (.err ⟨400, "idempotency_required", none⟩, st))
  ∧ (∀ key, getHeader req.headers "Idempotency-Key" = some key → key ≠ "" →
      key ∈ st.idemCache → requireIdempotencyForPost req st kont = (.dup, st))
  ∧ (∀ key, getHeader req.headers "Idempotency-Key" = some key → key ≠ "" →
      key ∉ st.idemCache →
      requireIdempotencyForPost req st kont =
        kont { st with idemCache := key :: st.idemCache })
  ∧ RouteResult.dup.statusOf = 409 := by
  refine ⟨?_, ?_, ?_, ?_, rfl⟩
  · intro hk
    unfold requireIdempotencyForPost
    rw [if_pos hpost, hk]
    rfl
  · intro hk
    unfold requireIdempotencyForPost
    rw [if_pos hpost, hk]
    simp only [idemGuardStep]
    rw [if_pos trivial]
  · intro key hk hne hmem
    unfold requireIdempotencyForPost
    rw [if_pos hpost, hk]
    simp only [idemGuardStep]
    rw [if_neg hne, if_pos hmem]
  · intro key hk hne hmem
    unfold requireIdempotencyForPost
    rw [if_pos hpost, hk]
    simp only [idemGuardStep]
    rw [if_neg hne, if_neg hmem]

/-- Witness for C4: a fresh key "K9" is recorded and the wrapped handler
runs on the updated state. -/
theorem c4_idempotency_guard_witness :
    requireIdempotencyForPost idemReq st0 kont0 =
      kont0 { st0 with idemCache := ["K9"] } :=
  (c4_idempotency_guard idemReq st0 kont0 rfl).2.2.2.1 "K9" (by decide) (by decide)
    (by decide)

/-- Claim C3: on a protected route, every token-verification failure —
missing or non-Bearer `Authorization` header, malformed token, bad
signature, wrong issuer, wrong audience, expired token, not-yet-valid
token — produces literally the same `401 {"error": "unauthorized"}`
response (so callers cannot distinguish the reason), the request is not
forwarded (the route result is that error, never a forward), and the
idempotency cache is untouched.  The final conjuncts check that each
listed failure mode indeed makes `jwt.decode` fail. -/
theorem c3_uniform_unauthorized (cfg : Config) (ctx : ReqCtx) (req : Req) (st : GState)
    (hfail : authFailed cfg ctx.now req)
    (hallow : (rateStep cfg.rateLimitRpm st.rateBuckets (rateKey cfg ctx.now req)
        (ctx.now / 60)).1 = true) :
    (∀ scopes roles : List String,
        jwtRequired cfg ctx.now scopes roles req = .error ⟨401, "unauthorized", none⟩)
  ∧ (patientsCollection cfg ctx req st).1 = .err ⟨401, "unauthorized", none⟩
  ∧ (appointmentsCollection cfg ctx req st).1 = .err ⟨401, "unauthorized", none⟩
  ∧ (appointmentsCollection cfg ctx req st).2.idemCache = st.idemCache
  ∧ pyjwtDecode cfg ctx.now true .malformed = none
  ∧ (∀ c, pyjwtDecode cfg ctx.now true (.signed false c) = none)
  ∧ (∀ sg c, c.iss ≠ cfg.jwtIssuer → pyjwtDecode cfg ctx.now true (.signed sg c) = none)
  ∧ (∀ sg c, c.aud ≠ cfg.jwtAudience → pyjwtDecode cfg ctx.now true (.signed sg c) = none)
  ∧ (∀ sg c, c.exp ≤ ctx.now → pyjwtDecode cfg ctx.now true (.signed sg c) = none)
  ∧ (∀ sg c, ctx.now < c.nbf → pyjwtDecode cfg ctx.now true (.signed sg c) = none) := by
  have hjwt : ∀ scopes roles : List String,
      jwtRequired cfg ctx.now scopes roles req = .error ⟨401, "unauthorized", none⟩ :=
    fun scopes roles => jwtRequired_unauthorized cfg ctx.now scopes roles req hfail
  refine ⟨hjwt, ?_, ?_, ?_, rfl, ?_, ?_, ?_, ?_, ?_⟩
  · unfold patientsCollection
    rw [runRateLimited_allowed cfg ctx req st hallow]
    rw [runJwt_error cfg ctx _ _ req _ (hjwt _ _)]
  · unfold appointmentsCollection
    rw [runRateLimited_allowed cfg ctx req st hallow]
    rw [runJwt_error cfg ctx _ _ req _ (hjwt _ _)]
  · unfold appointmentsCollection
    rw [runRateLimited_allowed cfg ctx req st hallow]
    rw [runJwt_error cfg ctx _ _ req _ (hjwt _ _)]
  · intro c
    simp [pyjwtDecode]
  · intro sg c hne
    simp [pyjwtDecode, hne]
  · intro sg c hne
    simp [pyjwtDecode, hne]
  · intro sg c hle
    simp [pyjwtDecode, Nat.not_lt.mpr hle]
  · intro sg c hlt
    simp [pyjwtDecode, Nat.not_le.mpr hlt]

/-- Witness for C3: a request without an `Authorization` header gets the
401 response from `GET /patients`. -/
theorem c3_uniform_unauthorized_witness :
    (patientsCollection cfg0 ctx0 anonReq st0).1 = .err ⟨401, "unauthorized", none⟩ :=
  (c3_uniform_unauthorized cfg0 ctx0 anonReq st0
    (fun tok h => AuthHdr.noConfusion h) (by decide)).2.1

/-- Claim C8: the aggregator's merge always yields status 200; its body is
keyed by exactly `patient`, `recentRecords` and `upcomingAppointments`;
each section is `callSection` of its own branch outcome only (so one
branch's failure cannot affect another section); a failed branch is
rendered as `{"error": <description>}`; and the spec's concrete scenario
(patients ok, records timed out, scheduling ok) produces 200 with an error
marker exactly in `recentRecords`. -/
theorem c8_aggregator_sections (rp rr rs : Except String Json) :
    (patientSummary rp rr rs).1 = 200
  ∧ jsonGet (patientSummary rp rr rs).2 "patient" = some (callSection rp)
  ∧ jsonGet (patientSummary rp rr rs).2 "recentRecords" = some (callSection rr)
  ∧ jsonGet (patientSummary rp rr rs).2 "upcomingAppointments" = some (callSection rs)
  ∧ (∀ e, rp = .error e → callSection rp = .obj [("error", .str e)])
  ∧ (∀ e, rr = .error e → callSection rr = .obj [("error", .str e)])
  ∧ (∀ e, rs = .error e → callSection rs = .obj [("error", .str e)])
  ∧ (∀ jp js e, patientSummary (.ok jp) (.error e) (.ok js) =
      (200, .obj [("patient", jp),
                  ("recentRecords", .obj [("error", .str e)]),
                  ("upcomingAppointments", js)])) := by
  refine ⟨rfl, rfl, rfl, rfl, ?_, ?_, ?_, ?_⟩
  · intro e h
    rw [h]
    rfl
  · intro e h
    rw [h]
    rfl
  · intro e h
    rw [h]
    rfl
  · intro jp js e
    rfl

/-- Witness for C8: the spec's scenario with a records timeout. -/
theorem c8_aggregator_sections_witness :
    jsonGet (patientSummary (.ok (.str "p")) (.error "timeout") (.ok (.str "s"))).2
      "recentRecords" = some (.obj [("error", .str "timeout")]) :=
  (c8_aggregator_sections (.ok (.str "p")) (.error "timeout") (.ok (.str "s"))).2.2.1

/-- Claim C9: the unauthenticated proxied routes `POST /auth/login` and
`POST /auth/refresh` forward with `_filtered_headers` applied to no
principal, so: caller-supplied `X-User-Id`, `X-User-Roles` and
`X-User-Scopes` headers survive the sanitization step with their values
unchanged; the sanitization step for an anonymous request never adds a
header (everything forwarded comes from the inbound set); identity
injection happens only when a verified principal is attached. -/
theorem c9_identity_header_passthrough (cfg : Config) (ctx : ReqCtx) (req : Req)
    (st : GState)
    (hallow : (rateStep cfg.rateLimitRpm st.rateBuckets (rateKey cfg ctx.now req)
        (ctx.now / 60)).1 = true) :
    (authLogin cfg ctx req st).1 =
      .fwd (filteredHeaders req.headers none) (requestUpstream cfg.retryCount ctx.net)
  ∧ (authRefresh cfg ctx req st).1 =
      .fwd (filteredHeaders req.headers none) (requestUpstream cfg.retryCount ctx.net)
  ∧ headerVal (filteredHeaders req.headers none) "X-User-Id" =
      headerVal req.headers "X-User-Id"
  ∧ headerVal (filteredHeaders req.headers none) "X-User-Roles" =
      headerVal req.headers "X-User-Roles"
  ∧ headerVal (filteredHeaders req.headers none) "X-User-Scopes" =
      headerVal req.headers "X-User-Scopes"
  ∧ (∀ kv, kv ∈ filteredHeaders req.headers none → kv ∈ req.headers) := by
  refine ⟨?_, ?_, ?_, ?_, ?_, ?_⟩
  · unfold authLogin
    rw [runRateLimited_allowed cfg ctx req st hallow]
  · unfold authRefresh
    rw [runRateLimited_allowed cfg ctx req st hallow]
  · exact headerVal_filter_not_stripped req.headers "X-User-Id" (by decide)
  · exact headerVal_filter_not_stripped req.headers "X-User-Roles" (by decide)
  · exact headerVal_filter_not_stripped req.headers "X-User-Scopes" (by decide)
  · intro kv hkv
    simp only [filteredHeaders, List.mem_filter] at hkv
    exact hkv.1

/-- Witness for C9: a spoofed `X-User-Id` header on an unauthenticated
request passes through the sanitization step unchanged. -/
theorem c9_identity_header_passthrough_witness :
    headerVal (filteredHeaders spoofReq.headers none) "X-User-Id" =
      headerVal spoofReq.headers "X-User-Id" :=
  (c9_identity_header_passthrough cfg0 ctx0 spoofReq st0 (by decide)).2.2.1

/-- Counterexample for C6 as stated: the claim says a backend HTTP
response is returned "otherwise unmodified (minus hop-by-hop headers)",
but the code also strips `Content-Length` from the backend response — and
`Content-Length` is not a hop-by-hop header.  With a backend answering
200 with a `Content-Length` header, the forwarded response has no headers,
while the claim's own transformation (`specRespHeaders`, hop-by-hop only)
would keep it. -/
theorem c6_counterexample :
    requestUpstream 0 (fun _ => .response ⟨200, [("Content-Length", "5")], "hello"⟩) =
      .response 200 [] "hello"
  ∧ specRespHeaders [("Content-Length", "5")] = [("Content-Length", "5")]
  ∧ ([] : List (String × String)) ≠ [("Content-Length", "5")] := by
  decide

/-- Claim C6 (amended: the passthrough strips hop-by-hop headers AND
`Content-Length`, which the response framework recomputes): with
`retryCount` extra attempts, if the first `i` attempts fail at the
transport level and attempt `i` (within the budget) yields an HTTP
response, that response is returned — whatever its status — with its
body intact and its headers minus hop-by-hop and `Content-Length`, after
back-off sleeps of `0.1 * 1, 0.1 * 2, ..., 0.1 * i` seconds (linearly
increasing, recorded in tenths); if every attempt within the budget fails
at the transport level, the result is the 502 `bad_gateway` carrying the
description of the LAST transport error; the last conjunct characterises
the response-header filter. -/
theorem c6_forwarder_retry (retryCount : Nat) (net : Nat → AttemptResult) :
    (∀ i r, i ≤ retryCount →
      (∀ j, j < i → ∃ d, net j = .transportError d) →
      net i = .response r →
      upstreamLoop net 0 retryCount =
        (.response r.status (filterRespHeaders r.headers) r.content, sleepList 0 i))
  ∧ (∀ d : Nat → String, (∀ i, i ≤ retryCount → net i = .transportError (d i)) →
      upstreamLoop net 0 retryCount =
        (.badGateway (d retryCount), sleepList 0 (retryCount + 1)))
  ∧ (∀ k, sleepList 0 k = (List.range k).map (fun j => j + 1))
  ∧ (∀ hs kv, kv ∈ filterRespHeaders hs ↔
      (kv ∈ hs ∧ isHopByHop kv.1 = false ∧ lowerStr kv.1 ≠ "content-length")) := by
  refine ⟨?_, ?_, ?_, ?_⟩
  · intro i r hi hfail hsucc
    exact upstreamLoop_success net r retryCount 0 i hi
      (fun j hj => by simpa using hfail j hj)
      (by simpa using hsucc)
  · intro d h
    have hall := upstreamLoop_all_fail net d retryCount 0 (fun j hj => by simpa using h j hj)
    simpa using hall
  · intro k
    rw [sleepList_linear k 0]
    refine congrArg (fun f => List.map f (List.range k)) ?_
    funext j
    show 0 + j + 1 = j + 1
    omega
  · intro hs kv
    simp only [filterRespHeaders, List.mem_filter, Bool.not_eq_true', Bool.or_eq_false_iff,
      decide_eq_false_iff_not]

/-- Witness for C6: with retry budget 2 against a backend whose transport
fails once and then answers, the caller gets the successful response after
a single 0.1-second back-off sleep. -/
theorem c6_forwarder_retry_witness :
    upstreamLoop netA 0 2 = (.response 200 [("X-A", "1")] "ok", [1]) := by
  have h := (c6_forwarder_retry 2 netA).1 1 ⟨200, [("X-A", "1")], "ok"⟩ (by omega)
    (fun j hj => ⟨"boom", by
      have hj0 : j = 0 := by omega
      subst hj0
      decide⟩)
    (by decide)
  exact h.trans (by decide)

/-- Claim C7: a request forwarded upstream never contains a `Connection`,
`Keep-Alive`, `Proxy-Authenticate`, `Proxy-Authorization`, `TE`,
`Trailers`, `Transfer-Encoding`, `Upgrade`, `Host` or `Content-Length`
header, compared case-insensitively (the second conjunct pins the strip
predicate to exactly that list); and when a verified principal is
attached, the forwarded headers carry `X-User-Id` equal to the principal's
subject, `X-User-Roles` equal to the comma-joined roles and
`X-User-Scopes` equal to the comma-joined scopes. -/
theorem c7_header_sanitization (hs : List (String × String)) (u : Option Principal) :
    (∀ kv, kv ∈ filteredHeaders hs u → stripName kv.1 = false)
  ∧ (∀ n, stripName n = true ↔ lowerStr n ∈
      ["connection", "keep-alive", "proxy-authenticate", "proxy-authorization",
       "te", "trailers", "transfer-encoding", "upgrade", "host", "content-length"])
  ∧ (∀ p, u = some p →
      headerVal (filteredHeaders hs u) "X-User-Id" = some p.sub
      ∧ headerVal (filteredHeaders hs u) "X-User-Roles" =
          some (String.intercalate "," p.roles)
      ∧ headerVal (filteredHeaders hs u) "X-User-Scopes" =
          some (String.intercalate "," p.scopes)) := by
  refine ⟨?_, ?_, ?_⟩
  · intro kv hkv
    cases u with
    | none =>
      simp only [filteredHeaders, List.mem_filter] at hkv
      simpa using hkv.2
    | some p =>
      simp only [filteredHeaders] at hkv
      rcases mem_setH _ _ _ hkv with h1 | h1
      · rcases mem_setH _ _ _ h1 with h2 | h2
        · rcases mem_setH _ _ _ h2 with h3 | h3
          · simp only [List.mem_filter] at h3
            simpa using h3.2
          · rw [h3]
            show stripName "X-User-Id" = false
            decide
        · rw [h2]
          show stripName "X-User-Roles" = false
          decide
      · rw [h1]
        show stripName "X-User-Scopes" = false
        decide
  · intro n
    simp [stripName, hopByHopNames]
    tauto
  · intro p hp
    subst hp
    simp only [filteredHeaders]
    refine ⟨?_, ?_, ?_⟩
    · rw [headerVal_setH_ne _ _ _ _ (by decide), headerVal_setH_ne _ _ _ _ (by decide),
        headerVal_setH_self]
    · rw [headerVal_setH_ne _ _ _ _ (by decide), headerVal_setH_self]
    · rw [headerVal_setH_self]

/-- Witness for C7: the `Host` and `Connection` headers are stripped and
the injected `X-User-Id` equals the principal's subject. -/
theorem c7_header_sanitization_witness :
    headerVal (filteredHeaders hdrsA (some principalA)) "X-User-Id" = some "u1" :=
  ((c7_header_sanitization hdrsA (some principalA)).2.2 principalA rfl).1

/-- Counterexample for C10 as stated: a token whose signature, issuer and
audience are all valid but whose `nbf` lies in the future still falls back
to the anonymous rate-limit key, because `jwt.decode` with only
`verify_exp` disabled still verifies `nbf`.  The claim asserts the key
would be the token's subject (`"alice:9.9.9.9"`); it is `"anon:9.9.9.9"`. -/
theorem c10_counterexample :
    nbfReq.auth = .bearer (.signed true nbfClaims)
  ∧ nbfClaims.iss = cfg0.jwtIssuer
  ∧ nbfClaims.aud = cfg0.jwtAudience
  ∧ rateKey cfg0 100 nbfReq = "anon:9.9.9.9"
  ∧ rateKey cfg0 100 nbfReq ≠ nbfClaims.sub ++ ":" ++ nbfReq.remoteAddr := by
  decide

/-- Claim C10 (amended: the decode with `verify_exp` disabled still checks
`nbf`, so the subject key additionally requires the not-before time to
have passed, and a not-before failure is one more way to fall back to the
anonymous key): with no Bearer header the key is `anon:addr`; with a
bearer token whose decode fails the key is `anon:addr`; with a decodable
token the key is `sub:addr`; and decoding with expiry verification
disabled succeeds exactly when the signature, not-before, audience and
issuer are good — the expiry is not consulted, so an expired token still
yields the subject key. -/
theorem c10_rate_key_derivation (cfg : Config) (now : Nat) (req : Req) :
    ((req.auth = .absent ∨ ∃ v, req.auth = .nonBearer v) →
      rateKey cfg now req = "anon" ++ ":" ++ req.remoteAddr)
  ∧ (∀ tok, req.auth = .bearer tok → pyjwtDecode cfg now false tok = none →
      rateKey cfg now req = "anon" ++ ":" ++ req.remoteAddr)
  ∧ (∀ tok c, req.auth = .bearer tok → pyjwtDecode cfg now false tok = some c →
      rateKey cfg now req = c.sub ++ ":" ++ req.remoteAddr)
  ∧ (∀ sg c, pyjwtDecode cfg now false (.signed sg c) = some c ↔
      (sg = true ∧ c.nbf ≤ now ∧ c.aud = cfg.jwtAudience ∧ c.iss = cfg.jwtIssuer))
  ∧ pyjwtDecode cfg now false .malformed = none := by
  refine ⟨?_, ?_, ?_, ?_, rfl⟩
  · rintro (h | ⟨v, h⟩) <;> (unfold rateKey rateUserKey; rw [h])
  · intro tok h hdec
    unfold rateKey rateUserKey
    rw [h]
    show (match pyjwtDecode cfg now false tok with
      | some c => c.sub
      | none => "anon") ++ ":" ++ req.remoteAddr = _
    rw [hdec]
  · intro tok c h hdec
    unfold rateKey rateUserKey
    rw [h]
    show (match pyjwtDecode cfg now false tok with
      | some c => c.sub
      | none => "anon") ++ ":" ++ req.remoteAddr = _
    rw [hdec]
  · intro sg c
    constructor
    · intro hsome
      by_cases hcond : sg = true ∧ c.nbf ≤ now ∧ ((false : Bool) = true → now < c.exp)
          ∧ c.aud = cfg.jwtAudience ∧ c.iss = cfg.jwtIssuer
      · exact ⟨hcond.1, hcond.2.1, hcond.2.2.2.1, hcond.2.2.2.2⟩
      · rw [show pyjwtDecode cfg now false (.signed sg c) =
            (if sg = true ∧ c.nbf ≤ now ∧ ((false : Bool) = true → now < c.exp)
                ∧ c.aud = cfg.jwtAudience ∧ c.iss = cfg.jwtIssuer
             then some c else none) from rfl, if_neg hcond] at hsome
        cases hsome
    · rintro ⟨h1, h2, h3, h4⟩
      show (if sg = true ∧ c.nbf ≤ now ∧ ((false : Bool) = true → now < c.exp)
          ∧ c.aud = cfg.jwtAudience ∧ c.iss = cfg.jwtIssuer
        then some c else none) = some c
      rw [if_pos ⟨h1, h2, fun hf => absurd hf (by decide), h3, h4⟩]

/-- Witness for C10: an expired token (at `now = 100`, `exp = 50`) with
valid signature, issuer and audience is still keyed by its subject. -/
theorem c10_rate_key_derivation_witness :
    rateKey cfg0 100 expiredReq = "bob" ++ ":" ++ "1.1.1.1" :=
  (c10_rate_key_derivation cfg0 100 expiredReq).2.2.1
    (.signed true expiredClaims) expiredClaims rfl (by decide)

/-- Claim C5: for any authenticated request whose token decodes to claims
`c`, and any route rule with non-empty required scopes and allowed roles
(as all configured routes have): `jwt_required` admits the request if and
only if the required scopes are a subset of the principal's scopes and the
allowed roles intersect the principal's roles; a scope failure answers
403 `missing scopes`, a role failure (after scopes pass) answers 403
`missing role`.  On the write-capable `/patients/{id}` route, a PUT or
DELETE by a principal that passed the base checks is rejected with 403
`patients:write required` exactly when `patients:write` is missing, and
forwarded otherwise — the write check runs after the base checks and
before the forward.  In particular a principal with roles `{ENFERMEIRO}`
and scopes `{patients:read}` is forwarded on GET `/patients` but rejected
with 403 on PUT `/patients/{id}`. -/
theorem c5_access_policy (cfg : Config) (ctx : ReqCtx) (req : Req) (tok : Token)
    (c : Claims) (st : GState)
    (hauth : req.auth = .bearer tok)
    (hdec : pyjwtDecode cfg ctx.now true tok = some c)
    (hallow : (rateStep cfg.rateLimitRpm st.rateBuckets (rateKey cfg ctx.now req)
        (ctx.now / 60)).1 = true) :
    (∀ scopes roles : List String, scopes ≠ [] → roles ≠ [] →
      ((jwtRequired cfg ctx.now scopes roles req = .ok ⟨c.sub, c.roles, c.scopes⟩) ↔
        ((∀ s ∈ scopes, s ∈ c.scopes) ∧ ∃ r ∈ roles, r ∈ c.roles))
      ∧ (¬(∀ s ∈ scopes, s ∈ c.scopes) →
          jwtRequired cfg ctx.now scopes roles req =
            .error ⟨403, "forbidden", some "missing scopes"⟩)
      ∧ ((∀ s ∈ scopes, s ∈ c.scopes) → (∀ r ∈ roles, r ∉ c.roles) →
          jwtRequired cfg ctx.now scopes roles req =
            .error ⟨403, "forbidden", some "missing role"⟩))
  ∧ ((req.method = "PUT" ∨ req.method = "DELETE") →
      "patients:read" ∈ c.scopes → (∃ r ∈ patientsRoles, r ∈ c.roles) →
      (("patients:write" ∉ c.scopes →
        (patientsResource cfg ctx req st).1 =
          .err ⟨403, "forbidden", some "patients:write required"⟩)
      ∧ ("patients:write" ∈ c.scopes →
        (patientsResource cfg ctx req st).1 =
          .fwd (filteredHeaders req.headers (some ⟨c.sub, c.roles, c.scopes⟩))
               (requestUpstream cfg.retryCount ctx.net))))
  ∧ (c.roles = ["ENFERMEIRO"] → c.scopes = ["patients:read"] →
      ((req.method = "GET" →
        (patientsCollection cfg ctx req st).1 =
          .fwd (filteredHeaders req.headers (some ⟨c.sub, c.roles, c.scopes⟩))
               (requestUpstream cfg.retryCount ctx.net))
      ∧ (req.method = "PUT" →
        (patientsResource cfg ctx req st).1 =
          .err ⟨403, "forbidden", some "patients:write required"⟩))) := by
  have hjr : ∀ scopes roles : List String,
      jwtRequired cfg ctx.now scopes roles req = policyCheck scopes roles c :=
    fun scopes roles => jwtRequired_decoded cfg ctx.now scopes roles req tok c hauth hdec
  have hok : "patients:read" ∈ c.scopes → (∃ r ∈ patientsRoles, r ∈ c.roles) →
      jwtRequired cfg ctx.now ["patients:read"] patientsRoles req =
        .ok ⟨c.sub, c.roles, c.scopes⟩ := by
    intro hpr hrole
    rw [hjr]
    unfold policyCheck
    have hn1 : ¬((["patients:read"] : List String) ≠ [] ∧
        ¬∀ s ∈ (["patients:read"] : List String), s ∈ c.scopes) := by
      intro h
      refine h.2 ?_
      intro s hs
      have hseq : s = "patients:read" := by simpa using hs
      rw [hseq]
      exact hpr
    have hn2 : ¬(patientsRoles ≠ [] ∧ ∀ r ∈ patientsRoles, r ∉ c.roles) := by
      intro h
      obtain ⟨r, hr1, hr2⟩ := hrole
      exact h.2 r hr1 hr2
    rw [if_neg hn1, if_neg hn2]
  have hres : "patients:read" ∈ c.scopes → (∃ r ∈ patientsRoles, r ∈ c.roles) →
      (req.method = "PUT" ∨ req.method = "DELETE") →
      (("patients:write" ∉ c.scopes →
        (patientsResource cfg ctx req st).1 =
          .err ⟨403, "forbidden", some "patients:write required"⟩)
      ∧ ("patients:write" ∈ c.scopes →
        (patientsResource cfg ctx req st).1 =
          .fwd (filteredHeaders req.headers (some ⟨c.sub, c.roles, c.scopes⟩))
               (requestUpstream cfg.retryCount ctx.net))) := by
    intro hpr hrole hmeth
    unfold patientsResource
    rw [runRateLimited_allowed cfg ctx req st hallow]
    rw [runJwt_ok cfg ctx _ _ req _ (hok hpr hrole)]
    constructor
    · intro hw
      rw [if_pos ⟨hmeth, hw⟩]
    · intro hw
      rw [if_neg (fun h => h.2 hw)]
  refine ⟨?_, ?_, ?_⟩
  · intro scopes roles hs hr
    rw [hjr scopes roles]
    unfold policyCheck
    refine ⟨?_, ?_, ?_⟩
    · constructor
      · intro hokk
        by_cases h1 : scopes ≠ [] ∧ ¬(∀ s ∈ scopes, s ∈ c.scopes)
        · rw [if_pos h1] at hokk
          exact Except.noConfusion hokk
        · rw [if_neg h1] at hokk
          by_cases h2 : roles ≠ [] ∧ (∀ r ∈ roles, r ∉ c.roles)
          · rw [if_pos h2] at hokk
            exact Except.noConfusion hokk
          · push_neg at h1 h2
            exact ⟨h1 hs, h2 hr⟩
      · rintro ⟨hsub, r, hr1, hr2⟩
        rw [if_neg (fun h => h.2 hsub), if_neg (fun h => h.2 r hr1 hr2)]
    · intro hnsub
      rw [if_pos ⟨hs, hnsub⟩]
    · intro hsub hdisj
      rw [if_neg (fun h => h.2 hsub), if_pos ⟨hr, hdisj⟩]
  · intro hmeth hpr hrole
    exact hres hpr hrole hmeth
  · intro hroles hscopes
    have hpr : "patients:read" ∈ c.scopes := by
      rw [hscopes]
      exact List.mem_singleton.mpr rfl
    have hrole : ∃ r ∈ patientsRoles, r ∈ c.roles := by
      refine ⟨"ENFERMEIRO", by decide, ?_⟩
      rw [hroles]
      exact List.mem_singleton.mpr rfl
    constructor
    · intro hget
      unfold patientsCollection
      rw [runRateLimited_allowed cfg ctx req st hallow]
      rw [runJwt_ok cfg ctx _ _ req _ (hok hpr hrole)]
      rw [if_neg (fun h => absurd (hget.symm.trans h.1) (by decide))]
    · intro hput
      have hw : "patients:write" ∉ c.scopes := by
        rw [hscopes]
        decide
      exact (hres hpr hrole (Or.inl hput)).1 hw

/-- Witness for C5: the nurse principal (roles `{ENFERMEIRO}`, scopes
`{patients:read}`) is forwarded on GET `/patients`. -/
theorem c5_access_policy_witness :
    (patientsCollection cfg0 ctx0 nurseReq st0).1 =
      .fwd (filteredHeaders nurseReq.headers
              (some ⟨"nurse1", ["ENFERMEIRO"], ["patients:read"]⟩))
           (requestUpstream cfg0.retryCount ctx0.net) :=
  ((c5_access_policy cfg0 ctx0 nurseReq (.signed true nurseClaims) nurseClaims st0
      rfl (by decide) (by decide)).2.2 rfl rfl).1 rfl

end Gateway
